import Mathlib

/-!
Verification of the distributed task runner's retry/failure-isolation core.

The definitions below are a shallow embedding of the Python sources:
  app/services/task_queue.py        (TaskQueue: task store)
  app/services/redis_queue.py       (RedisTaskQueue: shared work queue)
  app/services/retry_handler.py     (RetryHandler, DeadLetterQueue)
  app/services/enhanced_task_executor.py (EnhancedTaskExecutor)
  app/api/tasks.py                  (submission endpoint)

Python dicts are embedded as association lists with replace-in-place
insertion; wall-clock times are `Nat` timestamps passed explicitly;
`random.uniform(0.1, 0.3)` is an explicit rational parameter `u`;
exceptions are `Except`.
-/

namespace DTR

/-! ## Association-list embedding of Python dicts -/

def alookup {α β : Type} [DecidableEq α] : List (α × β) → α → Option β
  | [], _ => none
  | (k', v) :: rest, k => if k = k' then some v else alookup rest k

/-- `d[k] = v`: replace the (unique) binding in place, or append. -/
def ainsert {α β : Type} [DecidableEq α] : List (α × β) → α → β → List (α × β)
  | [], k, v => [(k, v)]
  | (k', v') :: rest, k, v =>
    if k = k' then (k, v) :: rest else (k', v') :: ainsert rest k v

/-- `del d[k]`: remove the (unique) binding. -/
def aerase {α β : Type} [DecidableEq α] : List (α × β) → α → List (α × β)
  | [], _ => []
  | (k', v') :: rest, k => if k = k' then rest else (k', v') :: aerase rest k

/-! ## Task model (app/models/task_model.py) -/

inductive TaskStatus where
  | pending
  | running
  | completed
  | failed
  | retrying
deriving DecidableEq

structure Task where
  id : Nat
  task_type : String
  payload : String
  status : TaskStatus
  result : Option String
  error_message : Option String
  retry_count : Nat
  max_retries : Nat
  created_at : Option Nat
  started_at : Option Nat
  completed_at : Option Nat
deriving DecidableEq

/-! ## Settings (app/core/config.py) -/

def settings_max_retries : Nat := 3

def settings_retry_delay : Nat := 5

/-! ## Task store (app/services/task_queue.py, class TaskQueue)

The SQLite table is the assoc list `tasks`; autoincremented primary keys
are `nextId`; the in-process `asyncio.Queue` of ready ids is `memQueue`. -/

structure TaskStoreState where
  tasks : List (Nat × Task)
  nextId : Nat
  memQueue : List Nat
deriving DecidableEq

/-- `TaskQueue.create_task`: persist a fresh PENDING task and enqueue its id. -/
def tq_create_task (st : TaskStoreState) (task_type payload : String) (now : Nat) :
    TaskStoreState × Task :=
  let task : Task :=
    { id := st.nextId
      task_type := task_type
      payload := payload
      status := TaskStatus.pending
      result := none
      error_message := none
      retry_count := 0
      max_retries := settings_max_retries
      created_at := some now
      started_at := none
      completed_at := none }
  ({ st with
     tasks := ainsert st.tasks task.id task
     nextId := st.nextId + 1
     memQueue := st.memQueue ++ [task.id] }, task)

/-- The record mutation performed by `TaskQueue.update_task_status` on the
loaded row: set status, optionally result / error_message, then the
timestamp rules (`started_at` on first RUNNING, `completed_at` on entry
into COMPLETED or FAILED). -/
def apply_update (t : Task) (status : TaskStatus)
    (result error_message : Option String) (now : Nat) : Task :=
  let t : Task := { t with status := status }
  let t : Task := match result with
    | some r => { t with result := some r }
    | none => t
  let t : Task := match error_message with
    | some m => { t with error_message := some m }
    | none => t
  if status = TaskStatus.running ∧ t.started_at = none then
    { t with started_at := some now }
  else if status = TaskStatus.completed ∨ status = TaskStatus.failed then
    { t with completed_at := some now }
  else t

/-- `TaskQueue.update_task_status`: raises `ValueError` when the id is
absent; otherwise commits the updated row. No transition validation is
performed by the source. -/
def update_task_status (st : TaskStoreState) (task_id : Nat) (status : TaskStatus)
    (result error_message : Option String) (now : Nat) :
    Except String (TaskStoreState × Task) :=
  match alookup st.tasks task_id with
  | none => Except.error "Task not found"
  | some t =>
    let t := apply_update t status result error_message now
    Except.ok ({ st with tasks := ainsert st.tasks task_id t }, t)

def exceptOk {ε α : Type} : Except ε α → Bool
  | Except.ok _ => true
  | Except.error _ => false

/-! ## Circuit breakers (app/services/retry_handler.py, class RetryHandler) -/

inductive BreakerState where
  | closed
  | opened
  | half_open
deriving DecidableEq

structure Breaker where
  failures : Nat
  last_failure : Option Nat
  state : BreakerState
deriving DecidableEq

def newBreaker : Breaker :=
  { failures := 0, last_failure := none, state := BreakerState.closed }

def failure_threshold : Nat := 5

def recovery_timeout : Nat := 60

structure RetryHandlerState where
  circuit_breakers : List (String × Breaker)
deriving DecidableEq

/-- The lazy-creation preamble shared by `_check_circuit_breaker` and
`record_failure`: `if task_type not in self.circuit_breakers: insert default`,
then read the entry. -/
def getBreaker (rh : RetryHandlerState) (task_type : String) :
    RetryHandlerState × Breaker :=
  match alookup rh.circuit_breakers task_type with
  | some b => (rh, b)
  | none =>
    (⟨ainsert rh.circuit_breakers task_type newBreaker⟩, newBreaker)

/-- `RetryHandler._check_circuit_breaker`.  Python's
`breaker["last_failure"] and (time.time() - breaker["last_failure"]) > 60`
is falsy both when `last_failure` is `None` and when it is `0`. -/
def check_circuit_breaker (rh : RetryHandlerState) (task_type : String)
    (now : Nat) : RetryHandlerState × Bool :=
  let p := getBreaker rh task_type
  let rh := p.1
  let breaker := p.2
  if breaker.state = BreakerState.opened then
    match breaker.last_failure with
    | some lf =>
      if lf ≠ 0 ∧ recovery_timeout < now - lf then
        (⟨ainsert rh.circuit_breakers task_type
            { breaker with state := BreakerState.half_open }⟩, true)
      else (rh, false)
    | none => (rh, false)
  else (rh, true)

/-- `RetryHandler.record_success`: acts only on an existing HALF_OPEN entry. -/
def record_success (rh : RetryHandlerState) (task_type : String) :
    RetryHandlerState :=
  match alookup rh.circuit_breakers task_type with
  | none => rh
  | some b =>
    if b.state = BreakerState.half_open then
      ⟨ainsert rh.circuit_breakers task_type
        { b with state := BreakerState.closed, failures := 0 }⟩
    else rh

/-- `RetryHandler.record_failure`. -/
def record_failure (rh : RetryHandlerState) (task_type : String) (now : Nat) :
    RetryHandlerState :=
  let p := getBreaker rh task_type
  let rh := p.1
  let b := p.2
  let b := { b with failures := b.failures + 1, last_failure := some now }
  let b :=
    if failure_threshold ≤ b.failures ∧ b.state ≠ BreakerState.opened then
      { b with state := BreakerState.opened }
    else b
  ⟨ainsert rh.circuit_breakers task_type b⟩

/-- `RetryHandler.reset_circuit_breaker`: acts only on an existing entry. -/
def reset_circuit_breaker (rh : RetryHandlerState) (task_type : String) :
    RetryHandlerState :=
  if (alookup rh.circuit_breakers task_type).isSome then
    ⟨ainsert rh.circuit_breakers task_type newBreaker⟩
  else rh

/-! ## Retry policy (RetryHandler.should_retry and helpers) -/

inductive RetryStrategy where
  | fixed
  | exponential
  | linear
  | jitter
deriving DecidableEq

/-- `RetryHandler._get_retry_strategy` (its `task_type` argument is unused
by the source as well). -/
def get_retry_strategy (task_type error_type : String) : RetryStrategy :=
  if error_type ∈ ["ConnectionError", "TimeoutError", "NetworkError"] then
    RetryStrategy.exponential
  else if error_type ∈ ["RateLimitError", "TooManyRequestsError"] then
    RetryStrategy.jitter
  else if error_type ∈ ["DatabaseError", "ConnectionPoolError"] then
    RetryStrategy.linear
  else
    RetryStrategy.exponential

/-- `RetryHandler._calculate_retry_delay`; `u` stands for the sampled
`random.uniform(0.1, 0.3)`, and Python's `int(...)` on the non-negative
jittered float is the floor. -/
def calculate_retry_delay (task : Task) (error_type : String) (u : ℚ) : Nat :=
  let strategy := get_retry_strategy task.task_type error_type
  let base_delay := settings_retry_delay
  match strategy with
  | RetryStrategy.fixed => base_delay
  | RetryStrategy.exponential =>
    min (base_delay * 2 ^ task.retry_count) 300
  | RetryStrategy.linear =>
    min (base_delay * (task.retry_count + 1)) 120
  | RetryStrategy.jitter =>
    let exponential_delay := base_delay * 2 ^ task.retry_count
    let jitter : ℚ := u * (exponential_delay : ℚ)
    let delay : ℚ := (exponential_delay : ℚ) + jitter
    min (Int.toNat (Int.floor delay)) 300

/-- `RetryHandler.should_retry`. -/
def should_retry (rh : RetryHandlerState) (task : Task) (error_type : String)
    (u : ℚ) (now : Nat) : RetryHandlerState × Bool × Option Nat :=
  if task.max_retries ≤ task.retry_count then (rh, false, none)
  else
    let c := check_circuit_breaker rh task.task_type now
    if c.2 then (c.1, true, some (calculate_retry_delay task error_type u))
    else (c.1, false, none)

/-! ## Dead-letter queue (app/services/retry_handler.py, class DeadLetterQueue) -/

structure DLQEntry where
  task_id : Nat
  task_type : String
  payload : String
  error_message : String
  error_type : String
  retry_count : Nat
  max_retries : Nat
  created_at : Option Nat
  failed_at : Nat
deriving DecidableEq

/-- The snapshot dict built by `DeadLetterQueue.add_dead_letter`. -/
def mk_dead_letter (task : Task) (error_message error_type : String)
    (now : Nat) : DLQEntry :=
  { task_id := task.id
    task_type := task.task_type
    payload := task.payload
    error_message := error_message
    error_type := error_type
    retry_count := task.retry_count
    max_retries := task.max_retries
    created_at := task.created_at
    failed_at := now }

/-- `DeadLetterQueue.add_dead_letter`: `self.dead_tasks[task.id] = dead_letter`. -/
def add_dead_letter (dlq : List (Nat × DLQEntry)) (task : Task)
    (error_message error_type : String) (now : Nat) : List (Nat × DLQEntry) :=
  ainsert dlq task.id (mk_dead_letter task error_message error_type now)

/-- `DeadLetterQueue.purge_dead_letters`: removes entries matching the
optional kind filter whose `failed_at` is older than the cutoff; returns
the remaining DLQ and the removed count. -/
def purge_dead_letters (dlq : List (Nat × DLQEntry)) (task_type : Option String)
    (older_than_hours now : Nat) : List (Nat × DLQEntry) × Nat :=
  let cutoff := now - older_than_hours * 3600
  let doomed : Nat × DLQEntry → Bool := fun p =>
    (match task_type with
     | none => true
     | some tt => decide (p.2.task_type = tt)) && decide (p.2.failed_at < cutoff)
  (dlq.filter (fun p => !(doomed p)), (dlq.filter doomed).length)

/-! ## Work queue (app/services/redis_queue.py) and full system state -/

structure Envelope where
  id : Nat
  task_type : String
  payload : String
  created_at : Option Nat
deriving DecidableEq

structure ExecStats where
  total_executed : Nat
  successful : Nat
  failed : Nat
  retried : Nat
deriving DecidableEq

structure SysState where
  store : TaskStoreState
  redis : List Envelope
  rh : RetryHandlerState
  dlq : List (Nat × DLQEntry)
  stats : ExecStats
deriving DecidableEq

/-- `RedisTaskQueue.create_task`: persist via the task store, then LPUSH an
envelope carrying the new task's id. -/
def redis_create_task (s : SysState) (task_type payload : String) (now : Nat) :
    SysState × Task :=
  let p := tq_create_task s.store task_type payload now
  let task := p.2
  let env : Envelope :=
    { id := task.id, task_type := task_type, payload := payload
      created_at := task.created_at }
  ({ s with store := p.1, redis := env :: s.redis }, task)

/-! ## Executor (app/services/enhanced_task_executor.py) -/

/-- The behaviour of the (randomized, sleeping) kind handler for one
invocation, supplied as an explicit parameter. -/
inductive HandlerOutcome where
  | success (result : String)
  | failure (error_type error_message : String)
deriving DecidableEq

def valid_task_types : List String :=
  ["text_processing", "ai_summarization", "batch_processing", "image_processing"]

/-- The kind dispatch in `execute_task`: the four recognized kinds invoke
their handler (whose behaviour is `outcome`); any other kind raises
`ValueError` without invoking a handler.  The first component records
whether a handler was invoked. -/
def dispatch_handler (task_type : String) (outcome : HandlerOutcome) :
    Bool × Except (String × String) String :=
  if task_type ∈ valid_task_types then
    (true,
      match outcome with
      | HandlerOutcome.success r => Except.ok r
      | HandlerOutcome.failure et em => Except.error (et, em))
  else
    (false, Except.error ("ValueError", "Unknown task type: " ++ task_type))

/-- Result of one `execute_task` call.  `pendingRetry` is the deferred
`_retry_after_delay` coroutine spawned by `asyncio.create_task`: the
(in-memory) task object it closed over, with the delay.  `raised` is the
`(error class name, message)` re-raised by the final `raise`. -/
structure ExecResult where
  state : SysState
  handlerInvoked : Bool
  pendingRetry : Option (Task × Nat)
  raised : Option (String × String)
  result : Option String
deriving DecidableEq

/-- The `except Exception` block of `execute_task`, including
`_schedule_retry`.  Note that `task.retry_count += 1` mutates only the
detached in-memory object (captured in `pendingRetry`), never the store. -/
def handle_failure (s : SysState) (task : Task) (e : String × String)
    (invoked : Bool) (now : Nat) (u : ℚ) : ExecResult :=
  let s : SysState := { s with rh := record_failure s.rh task.task_type now }
  let r := should_retry s.rh task e.1 u now
  let s : SysState := { s with rh := r.1 }
  if r.2.1 then
    match r.2.2 with
    | some delay =>
      match update_task_status s.store task.id TaskStatus.retrying none none now with
      | Except.error m =>
        { state := s, handlerInvoked := invoked, pendingRetry := none
          raised := some ("ValueError", m), result := none }
      | Except.ok p =>
        let s : SysState := { s with store := p.1 }
        let task : Task := { task with retry_count := task.retry_count + 1 }
        let s : SysState :=
          { s with stats := { s.stats with retried := s.stats.retried + 1 } }
        { state := s, handlerInvoked := invoked
          pendingRetry := some (task, delay), raised := some e, result := none }
    | none =>
      { state := s, handlerInvoked := invoked, pendingRetry := none
        raised := some e, result := none }
  else
    match update_task_status s.store task.id TaskStatus.failed none (some e.2) now with
    | Except.error m =>
      { state := s, handlerInvoked := invoked, pendingRetry := none
        raised := some ("ValueError", m), result := none }
    | Except.ok p =>
      let s : SysState := { s with store := p.1 }
      let s : SysState := { s with dlq := add_dead_letter s.dlq task e.2 e.1 now }
      let s : SysState :=
        { s with stats := { s.stats with failed := s.stats.failed + 1 } }
      { state := s, handlerInvoked := invoked, pendingRetry := none
        raised := some e, result := none }

/-- `EnhancedTaskExecutor.execute_task`.  There is no terminal-status
pre-check in the source: the RUNNING transition and the handler dispatch
happen unconditionally for whatever task was loaded. -/
def execute_task (s : SysState) (task : Task) (outcome : HandlerOutcome)
    (now : Nat) (u : ℚ) : ExecResult :=
  let s : SysState :=
    { s with stats := { s.stats with total_executed := s.stats.total_executed + 1 } }
  match update_task_status s.store task.id TaskStatus.running none none now with
  | Except.error m => handle_failure s task ("ValueError", m) false now u
  | Except.ok p =>
    let s : SysState := { s with store := p.1 }
    let d := dispatch_handler task.task_type outcome
    match d.2 with
    | Except.error e => handle_failure s task e d.1 now u
    | Except.ok r =>
      match update_task_status s.store task.id TaskStatus.completed (some r) none now with
      | Except.error m => handle_failure s task ("ValueError", m) d.1 now u
      | Except.ok p2 =>
        let s : SysState := { s with store := p2.1 }
        let s : SysState := { s with rh := record_success s.rh task.task_type }
        let s : SysState :=
          { s with stats := { s.stats with successful := s.stats.successful + 1 } }
        { state := s, handlerInvoked := d.1, pendingRetry := none
          raised := none, result := some r }

/-- `EnhancedTaskExecutor._retry_after_delay`: after sleeping, re-enqueue by
creating a task through the Redis queue (which mints a fresh id). -/
def retry_after_delay (s : SysState) (task : Task) (now : Nat) : SysState :=
  (redis_create_task s task.task_type task.payload now).1

/-- `DeadLetterQueue.retry_dead_letter`.  The in-memory `task.retry_count = 0`
and `task.status = PENDING` assignments act on a detached row object; the
only store write is `update_task_status(task_id, PENDING)`. -/
def retry_dead_letter (s : SysState) (task_id : Nat) (now : Nat) :
    SysState × Bool :=
  match alookup s.dlq task_id with
  | none => (s, false)
  | some dead =>
    match alookup s.store.tasks task_id with
    | none => (s, false)
    | some t =>
      match update_task_status s.store task_id TaskStatus.pending none none now with
      | Except.error _ => (s, false)
      | Except.ok p =>
        let s : SysState := { s with store := p.1 }
        let s : SysState := (redis_create_task s t.task_type dead.payload now).1
        let s : SysState := { s with dlq := aerase s.dlq task_id }
        (s, true)

/-! ## Submission endpoint (app/api/tasks.py, create_task) -/

/-- The body of the `try` block in the `create_task` endpoint: unknown kinds
raise `HTTPException(400)`, recognized kinds persist and enqueue. -/
def create_task_endpoint_body (s : SysState) (task_type payload : String)
    (now : Nat) : SysState × Except (Nat × String) Task :=
  if task_type ∈ valid_task_types then
    let p := redis_create_task s task_type payload now
    (p.1, Except.ok p.2)
  else
    (s, Except.error (400, "Invalid task_type"))

/-- The whole endpoint: its `except Exception` clause catches every raised
exception — the `HTTPException(400)` included — and re-raises
`HTTPException(500)`.  Returns the resulting HTTP status code. -/
def api_create_task (s : SysState) (task_type payload : String) (now : Nat) :
    SysState × Nat :=
  match create_task_endpoint_body s task_type payload now with
  | (s', Except.ok _) => (s', 201)
  | (s', Except.error _) => (s', 500)

/-! ## Concrete fixtures -/

def emptyStats : ExecStats :=
  { total_executed := 0, successful := 0, failed := 0, retried := 0 }

def c1_task : Task :=
  { id := 1, task_type := "text_processing", payload := "p"
    status := TaskStatus.completed, result := some "r", error_message := none
    retry_count := 0, max_retries := 3
    created_at := some 1, started_at := some 2, completed_at := some 3 }

def c1_state : SysState :=
  { store := { tasks := [(1, c1_task)], nextId := 2, memQueue := [] }
    redis := [], rh := ⟨[]⟩, dlq := [], stats := emptyStats }

def c1_result : ExecResult :=
  execute_task c1_state c1_task (HandlerOutcome.failure "TimeoutError" "boom") 10 0

/-- Claim C1: the spec requires the executor to detect a terminal status
(COMPLETED/FAILED) and ack without re-execution, mutating nothing but
`total_executed`.  The source performs no such pre-check: delivered a task
already COMPLETED, it invokes the handler, rewrites the stored record all
the way to RETRYING, creates a breaker entry, and bumps `retried`. -/
theorem claim_C1_no_terminal_precheck :
    c1_result.handlerInvoked = true ∧
    (alookup c1_result.state.store.tasks 1).map Task.status =
      some TaskStatus.retrying ∧
    c1_result.state.rh.circuit_breakers ≠ [] ∧
    c1_result.state.stats.retried = 1 ∧
    c1_result.state.stats.total_executed = 1 := by decide

def c2_task : Task :=
  { id := 1, task_type := "text_processing", payload := "p"
    status := TaskStatus.pending, result := none, error_message := none
    retry_count := 0, max_retries := 3
    created_at := some 1, started_at := none, completed_at := none }

def c2_state : SysState :=
  { store := { tasks := [(1, c2_task)], nextId := 2, memQueue := [] }
    redis := [], rh := ⟨[]⟩, dlq := [], stats := emptyStats }

def c2_result : ExecResult :=
  execute_task c2_state c2_task (HandlerOutcome.failure "TimeoutError" "t") 10 0

def c2_after : SysState :=
  match c2_result.pendingRetry with
  | some p => retry_after_delay c2_result.state p.1 20
  | none => c2_result.state

/-- Claim C2: on a retryable failure the claim requires the stored
`retry_count` to be incremented before the timer is armed and the
re-enqueued envelope to carry the original task's id.  The source persists
only status RETRYING — the stored `retry_count` stays 0 (the increment hits
a detached object) — and the deferred re-enqueue creates a brand-new task,
so the envelope's id is 2, not 1. -/
theorem claim_C2_retry_not_persisted :
    (alookup c2_result.state.store.tasks 1).map Task.status =
      some TaskStatus.retrying ∧
    (alookup c2_result.state.store.tasks 1).map Task.retry_count = some 0 ∧
    (c2_result.pendingRetry.map (fun p => p.1.retry_count)) = some 1 ∧
    c2_after.redis.head?.map Envelope.id = some 2 ∧
    (alookup c2_after.store.tasks 1).map Task.retry_count = some 0 := by decide

def c3_task : Task :=
  { id := 1, task_type := "text_processing", payload := "p"
    status := TaskStatus.failed, result := none, error_message := some "boom"
    retry_count := 2, max_retries := 3
    created_at := some 1, started_at := some 2, completed_at := some 3 }

def c3_entry : DLQEntry := mk_dead_letter c3_task "boom" "TimeoutError" 4

def c3_state : SysState :=
  { store := { tasks := [(1, c3_task)], nextId := 2, memQueue := [] }
    redis := [], rh := ⟨[]⟩, dlq := [(1, c3_entry)], stats := emptyStats }

def c3_result : SysState × Bool := retry_dead_letter c3_state 1 50

/-- Claim C3: requeue of a present DLQ task is claimed to reset the stored
task to `retry_count = 0` and enqueue an envelope for that task.  The source
persists only status PENDING — the stored `retry_count` stays 2 — and
enqueues an envelope for a freshly created task with a new id (2). -/
theorem claim_C3_requeue_not_reset :
    c3_result.2 = true ∧
    (alookup c3_result.1.store.tasks 1).map Task.status =
      some TaskStatus.pending ∧
    (alookup c3_result.1.store.tasks 1).map Task.retry_count = some 2 ∧
    c3_result.1.redis.head?.map Envelope.id = some 2 ∧
    c3_result.1.dlq = [] ∧
    (retry_dead_letter c3_state 7 50).2 = false := by decide

def c8_state : SysState :=
  { store := { tasks := [], nextId := 1, memQueue := [] }
    redis := [], rh := ⟨[]⟩, dlq := [], stats := emptyStats }

/-- Claim C8: the claim (and spec) require status 400 for an unrecognized
kind.  The source's blanket `except Exception` in the endpoint catches its
own `HTTPException(400)` and re-raises status 500, so an unrecognized kind
yields 500; recognized kinds still yield 201. -/
theorem claim_C8_unrecognized_kind_500 :
    (api_create_task c8_state "bogus_kind" "p" 0).2 = 500 ∧
    (api_create_task c8_state "text_processing" "p" 0).2 = 201 := by decide

/-! ## Association-list lemmas -/

theorem alookup_ainsert_self {α β : Type} [DecidableEq α]
    (l : List (α × β)) (k : α) (v : β) :
    alookup (ainsert l k v) k = some v := by
  induction l with
  | nil => simp [ainsert, alookup]
  | cons hd tl ih =>
    obtain ⟨k', v'⟩ := hd
    by_cases hk : k = k'
    · simp [ainsert, hk, alookup]
    · simp [ainsert, hk, alookup, ih]

theorem ainsert_self_of_lookup {α β : Type} [DecidableEq α]
    (l : List (α × β)) (k : α) (v : β) (h : alookup l k = some v) :
    ainsert l k v = l := by
  induction l with
  | nil => simp [alookup] at h
  | cons hd tl ih =>
    obtain ⟨k', v'⟩ := hd
    by_cases hk : k = k'
    · subst hk
      simp [alookup] at h
      simp [ainsert, h]
    · simp [alookup, hk] at h
      simp [ainsert, hk, ih h]

/-! ## Task store theorems (claim C4) -/

theorem apply_update_idem (t : Task) (status : TaskStatus)
    (r e : Option String) (now : Nat) :
    apply_update (apply_update t status r e now) status r e now =
      apply_update t status r e now := by
  unfold apply_update
  cases r <;> cases e <;> cases status <;>
    by_cases h : t.started_at = none <;> simp [h]

def c4_task : Task :=
  { id := 1, task_type := "text_processing", payload := "p"
    status := TaskStatus.pending, result := none, error_message := none
    retry_count := 0, max_retries := 3
    created_at := some 1, started_at := none, completed_at := none }

def c4_store : TaskStoreState :=
  { tasks := [(1, c4_task)], nextId := 2, memQueue := [] }

/-- Claim C4, counterexample: `update_task_status` is claimed to reject the
transitions outside the DAG with an `InvalidTransition` error, but the
source validates nothing: updating a PENDING task straight to COMPLETED —
an edge absent from the DAG — succeeds and commits the new status. -/
theorem claim_C4_counterexample :
    exceptOk (update_task_status c4_store 1 TaskStatus.completed
      (some "r") none 5) = true ∧
    ((update_task_status c4_store 1 TaskStatus.completed (some "r") none 5).toOption.map
      (fun p => p.2.status)) = some TaskStatus.completed := by decide

/-- Claim C4, amended: `update_task_status` performs no transition
validation at all — for any stored task every requested status update
succeeds (its only error is an unknown id) — and repeating the identical
update at an unchanged clock is a no-op on both the store and the returned
record. -/
theorem claim_C4_amended_no_validation (st : TaskStoreState) (task_id : Nat)
    (status : TaskStatus) (r e : Option String) (now : Nat) (t : Task)
    (h : alookup st.tasks task_id = some t) :
    ∃ st' t', update_task_status st task_id status r e now = Except.ok (st', t') ∧
      update_task_status st' task_id status r e now = Except.ok (st', t') := by
  refine ⟨{ st with tasks := ainsert st.tasks task_id (apply_update t status r e now) },
    apply_update t status r e now, ?_, ?_⟩
  · simp [update_task_status, h]
  · have h2 := alookup_ainsert_self st.tasks task_id (apply_update t status r e now)
    simp only [update_task_status, h2, apply_update_idem]
    rw [ainsert_self_of_lookup _ _ _ h2]

/-- Claim C4 witness: the amended theorem applied at the concrete fixture. -/
theorem claim_C4_amended_witness :
    alookup c4_store.tasks 1 = some c4_task ∧
    ∃ st' t', update_task_status c4_store 1 TaskStatus.running none none 7 =
      Except.ok (st', t') ∧
      update_task_status st' 1 TaskStatus.running none none 7 =
        Except.ok (st', t') :=
  ⟨by decide, claim_C4_amended_no_validation c4_store 1 TaskStatus.running
    none none 7 c4_task (by decide)⟩

/-! ## Breaker lemmas -/

def failuresOf (rh : RetryHandlerState) (k : String) : Nat :=
  ((alookup rh.circuit_breakers k).map Breaker.failures).getD 0

/-- The breaker value written back by one `record_failure` call. -/
def record_failure_result (b : Breaker) (t : Nat) : Breaker :=
  if failure_threshold ≤ b.failures + 1 ∧ b.state ≠ BreakerState.opened then
    { failures := b.failures + 1, last_failure := some t
      state := BreakerState.opened }
  else
    { failures := b.failures + 1, last_failure := some t, state := b.state }

theorem getBreaker_failures (rh : RetryHandlerState) (k : String) :
    (getBreaker rh k).2.failures = failuresOf rh k := by
  unfold getBreaker failuresOf
  cases h : alookup rh.circuit_breakers k <;> simp [h, newBreaker]

theorem record_failure_lookup (rh : RetryHandlerState) (k : String) (t : Nat) :
    alookup (record_failure rh k t).circuit_breakers k =
      some (record_failure_result (getBreaker rh k).2 t) := by
  unfold record_failure record_failure_result getBreaker
  cases h : alookup rh.circuit_breakers k <;>
    simp [h, alookup_ainsert_self]

theorem record_failure_result_failures (b : Breaker) (t : Nat) :
    (record_failure_result b t).failures = b.failures + 1 := by
  unfold record_failure_result
  split <;> rfl

theorem record_failure_result_last (b : Breaker) (t : Nat) :
    (record_failure_result b t).last_failure = some t := by
  unfold record_failure_result
  split <;> rfl

theorem record_failure_result_state (b : Breaker) (t : Nat)
    (h : failure_threshold ≤ b.failures + 1) :
    (record_failure_result b t).state = BreakerState.opened := by
  unfold record_failure_result
  split
  · rfl
  · rename_i hneg
    simp only [not_and, not_not] at hneg
    exact hneg h

theorem failuresOf_record_failure (rh : RetryHandlerState) (k : String) (t : Nat) :
    failuresOf (record_failure rh k t) k = failuresOf rh k + 1 := by
  unfold failuresOf
  rw [record_failure_lookup]
  simp [record_failure_result_failures, getBreaker_failures rh k,
    show (getBreaker rh k).snd.failures = failuresOf rh k from getBreaker_failures rh k]
  rfl

/-- A run of consecutive `record_failure` calls for one kind. -/
def recordFailures (rh : RetryHandlerState) (k : String) (ts : List Nat) :
    RetryHandlerState :=
  ts.foldl (fun s t => record_failure s k t) rh

theorem recordFailures_failuresOf (rh : RetryHandlerState) (k : String)
    (ts : List Nat) :
    failuresOf (recordFailures rh k ts) k = failuresOf rh k + ts.length := by
  induction ts generalizing rh with
  | nil => simp [recordFailures]
  | cons t ts ih =>
    have : recordFailures rh k (t :: ts) = recordFailures (record_failure rh k t) k ts := rfl
    rw [this, ih, failuresOf_record_failure]
    simp
    omega

/-- Claim C5: any run of at least `failure_threshold` (= 5) consecutive
`record_failure` calls for kind `k`, with no intervening success, leaves
the breaker for `k` OPEN with `last_failure_at` set — from any starting
registry state. -/
theorem claim_C5_failure_burst_opens (rh : RetryHandlerState) (k : String)
    (ts : List Nat) (h : failure_threshold ≤ ts.length) :
    ∃ b, alookup (recordFailures rh k ts).circuit_breakers k = some b ∧
      b.state = BreakerState.opened ∧ b.last_failure.isSome = true := by
  rcases List.eq_nil_or_concat ts with rfl | ⟨l, t, rfl⟩
  · simp [failure_threshold] at h
  · have hfold : recordFailures rh k (l.concat t) =
        record_failure (recordFailures rh k l) k t := by
      simp [recordFailures, List.concat_eq_append, List.foldl_append]
    have hlen : failure_threshold ≤ l.length + 1 := by
      simpa [List.concat_eq_append] using h
    have hfail : failuresOf (recordFailures rh k l) k + 1 ≥ failure_threshold := by
      rw [recordFailures_failuresOf]
      omega
    refine ⟨record_failure_result (getBreaker (recordFailures rh k l) k).2 t,
      ?_, ?_, ?_⟩
    · rw [hfold, record_failure_lookup]
    · apply record_failure_result_state
      rw [getBreaker_failures]
      omega
    · rw [record_failure_result_last]
      rfl

/-- Claim C5 witness: five consecutive failures on a fresh registry open
the breaker. -/
theorem claim_C5_witness :
    failure_threshold ≤ ([1, 2, 3, 4, 5] : List Nat).length ∧
    ∃ b, alookup (recordFailures ⟨[]⟩ "text_processing" [1, 2, 3, 4, 5]).circuit_breakers
        "text_processing" = some b ∧
      b.state = BreakerState.opened ∧ b.last_failure.isSome = true :=
  ⟨by decide, claim_C5_failure_burst_opens ⟨[]⟩ "text_processing"
    [1, 2, 3, 4, 5] (by decide)⟩

/-! ## Breaker operation alphabet (claim C9) -/

inductive BreakerOp where
  | success
  | failure (t : Nat)
  | check (now : Nat)
  | reset
deriving DecidableEq

def apply_breaker_op (rh : RetryHandlerState) (k : String) :
    BreakerOp → RetryHandlerState
  | BreakerOp.success => record_success rh k
  | BreakerOp.failure t => record_failure rh k t
  | BreakerOp.check now => (check_circuit_breaker rh k now).1
  | BreakerOp.reset => reset_circuit_breaker rh k

/-- Claim C9: `record_success` on a CLOSED breaker is a complete no-op (in
particular the failures counter is not reset), and across the whole
operation alphabet a nonzero failures counter reaches zero only through a
`record_success` in HALF_OPEN state or a manual reset. -/
theorem claim_C9_success_frame_and_zero_reach :
    (∀ rh k b, alookup rh.circuit_breakers k = some b →
      b.state = BreakerState.closed → record_success rh k = rh) ∧
    (∀ rh k op b b', alookup rh.circuit_breakers k = some b →
      b.failures ≠ 0 →
      alookup (apply_breaker_op rh k op).circuit_breakers k = some b' →
      b'.failures = 0 →
      op = BreakerOp.reset ∨
        (op = BreakerOp.success ∧ b.state = BreakerState.half_open)) := by
  constructor
  · intro rh k b hb hc
    simp [record_success, hb, hc]
  · intro rh k op b b' hb hf hb' hf0
    cases op with
    | reset => exact Or.inl rfl
    | success =>
      by_cases hs : b.state = BreakerState.half_open
      · exact Or.inr ⟨rfl, hs⟩
      · exfalso
        simp [apply_breaker_op, record_success, hb, hs] at hb'
        subst hb'
        exact hf hf0
    | failure t =>
      exfalso
      rw [show apply_breaker_op rh k (BreakerOp.failure t) = record_failure rh k t
        from rfl, record_failure_lookup] at hb'
      simp at hb'
      rw [← hb'] at hf0
      rw [record_failure_result_failures] at hf0
      exact Nat.succ_ne_zero _ hf0
    | check now =>
      exfalso
      by_cases ho : b.state = BreakerState.opened
      · cases hlf : b.last_failure with
        | none =>
          simp [apply_breaker_op, check_circuit_breaker, getBreaker, hb, ho, hlf] at hb'
          subst hb'
          exact hf hf0
        | some lf =>
          by_cases hc : lf ≠ 0 ∧ recovery_timeout < now - lf
          · simp [apply_breaker_op, check_circuit_breaker, getBreaker, hb, ho, hlf,
              hc, alookup_ainsert_self] at hb'
            rw [← hb'] at hf0
            exact hf hf0
          · simp [apply_breaker_op, check_circuit_breaker, getBreaker, hb, ho, hlf,
              hc] at hb'
            subst hb'
            exact hf hf0
      · simp [apply_breaker_op, check_circuit_breaker, getBreaker, hb, ho] at hb'
        subst hb'
        exact hf hf0

def c9_breaker : Breaker :=
  { failures := 2, last_failure := some 1, state := BreakerState.closed }

def c9_rh : RetryHandlerState := ⟨[("text_processing", c9_breaker)]⟩

/-- Claim C9 witness: both conjuncts applied at a concrete CLOSED breaker
with two accumulated failures. -/
theorem claim_C9_witness :
    record_success c9_rh "text_processing" = c9_rh ∧
    (BreakerOp.reset = BreakerOp.reset ∨
      (BreakerOp.reset = BreakerOp.success ∧
        c9_breaker.state = BreakerState.half_open)) :=
  ⟨claim_C9_success_frame_and_zero_reach.1 c9_rh "text_processing" c9_breaker
      (by decide) (by decide),
   claim_C9_success_frame_and_zero_reach.2 c9_rh "text_processing"
      BreakerOp.reset c9_breaker newBreaker (by decide) (by decide)
      (by decide) (by decide)⟩

/-! ## Breaker recovery (claim C6) -/

def c6_breaker : Breaker :=
  { failures := 5, last_failure := some 1, state := BreakerState.opened }

def c6_rh : RetryHandlerState := ⟨[("text_processing", c6_breaker)]⟩

/-- Claim C6, counterexample: after the recovery timeout the first `allow?`
transitions the breaker to HALF_OPEN and returns true, but the true result
is not yielded exactly once — a second `allow?` call before any recorded
outcome returns true again (the source returns true for every call while
the state is HALF_OPEN). -/
theorem claim_C6_counterexample :
    (check_circuit_breaker c6_rh "text_processing" 62).2 = true ∧
    (alookup (check_circuit_breaker c6_rh "text_processing" 62).1.circuit_breakers
      "text_processing").map Breaker.state = some BreakerState.half_open ∧
    (check_circuit_breaker (check_circuit_breaker c6_rh "text_processing" 62).1
      "text_processing" 62).2 = true := by decide

/-- Claim C6, amended: for an OPEN breaker with nonzero `last_failure_at`,
once current time minus `last_failure_at` exceeds `recovery_timeout` the
next `allow?` call transitions it to HALF_OPEN and returns true; the probe
is not limited to one — every further `allow?` call while the breaker stays
HALF_OPEN also returns true — and a subsequent `record_success` moves the
breaker to CLOSED with `failures = 0`. -/
theorem claim_C6_amended_half_open_probes (rh : RetryHandlerState) (k : String)
    (b : Breaker) (lf now now2 : Nat)
    (hb : alookup rh.circuit_breakers k = some b)
    (hst : b.state = BreakerState.opened)
    (hlf : b.last_failure = some lf) (hlf0 : lf ≠ 0)
    (ht : recovery_timeout < now - lf) :
    (check_circuit_breaker rh k now).2 = true ∧
    alookup (check_circuit_breaker rh k now).1.circuit_breakers k =
      some { b with state := BreakerState.half_open } ∧
    (check_circuit_breaker (check_circuit_breaker rh k now).1 k now2).2 = true ∧
    alookup (record_success (check_circuit_breaker rh k now).1 k).circuit_breakers k =
      some { failures := 0, last_failure := b.last_failure
             state := BreakerState.closed } := by
  have h1 : check_circuit_breaker rh k now =
      (⟨ainsert rh.circuit_breakers k { b with state := BreakerState.half_open }⟩,
        true) := by
    simp [check_circuit_breaker, getBreaker, hb, hst, hlf, hlf0, ht]
  have h2 : alookup (check_circuit_breaker rh k now).1.circuit_breakers k =
      some { b with state := BreakerState.half_open } := by
    rw [h1]
    exact alookup_ainsert_self ..
  have h3 : alookup (ainsert rh.circuit_breakers k
      { b with state := BreakerState.half_open }) k =
      some { b with state := BreakerState.half_open } := alookup_ainsert_self ..
  refine ⟨by rw [h1], h2, ?_, ?_⟩
  · rw [h1]
    simp [check_circuit_breaker, getBreaker, h3]
  · rw [h1]
    simp [record_success, h3]
    rw [alookup_ainsert_self]

def c6w_rh : RetryHandlerState :=
  ⟨[("batch_processing",
     { failures := 7, last_failure := some 5, state := BreakerState.opened })]⟩

/-- Claim C6 witness: the amended theorem applied to a concrete OPEN breaker
whose last failure was at time 5, probed at time 66 and again at time 80. -/
theorem claim_C6_amended_witness :
    (5 : Nat) ≠ 0 ∧ recovery_timeout < 66 - 5 ∧
    ((check_circuit_breaker c6w_rh "batch_processing" 66).2 = true ∧
     alookup (check_circuit_breaker c6w_rh "batch_processing" 66).1.circuit_breakers
        "batch_processing" =
       some { failures := 7, last_failure := some 5
              state := BreakerState.half_open } ∧
     (check_circuit_breaker (check_circuit_breaker c6w_rh "batch_processing" 66).1
        "batch_processing" 80).2 = true ∧
     alookup (record_success (check_circuit_breaker c6w_rh "batch_processing" 66).1
        "batch_processing").circuit_breakers "batch_processing" =
       some { failures := 0, last_failure := some 5
              state := BreakerState.closed }) :=
  ⟨by decide, by decide,
   claim_C6_amended_half_open_probes c6w_rh "batch_processing"
     { failures := 7, last_failure := some 5, state := BreakerState.opened }
     5 66 80 (by decide) (by decide) (by decide) (by decide) (by decide)⟩

/-! ## Retry delay refinement (claim C7) -/

/-- The delay exactly as the claim states it, keyed on the error's class
name: `min(base * 2^n, 300)` for the transient-network names and for unknown
names, jittered `min(βŒŠbase * 2^n * (1 + u)βŒ‹, 300)` for the rate-limit
names, `min(base * (n+1), 120)` for the storage names; `base` is the
configured retry delay. -/
def claimed_delay (error_type : String) (n : Nat) (u : ℚ) : Nat :=
  if error_type ∈ ["ConnectionError", "TimeoutError", "NetworkError"] then
    min (settings_retry_delay * 2 ^ n) 300
  else if error_type ∈ ["RateLimitError", "TooManyRequestsError"] then
    min (Int.toNat (Int.floor
      (((settings_retry_delay * 2 ^ n : Nat) : ℚ) * (1 + u)))) 300
  else if error_type ∈ ["DatabaseError", "ConnectionPoolError"] then
    min (settings_retry_delay * (n + 1)) 120
  else
    min (settings_retry_delay * 2 ^ n) 300

theorem calculate_retry_delay_eq_claimed (task : Task) (error_type : String)
    (u : ℚ) :
    calculate_retry_delay task error_type u =
      claimed_delay error_type task.retry_count u := by
  unfold calculate_retry_delay claimed_delay get_retry_strategy
  by_cases h1 : error_type ∈ ["ConnectionError", "TimeoutError", "NetworkError"]
  · simp [h1]
  · by_cases h2 : error_type ∈ ["RateLimitError", "TooManyRequestsError"]
    · simp only [h1, h2, if_true, if_false]
      congr 2
      push_cast
      ring_nf
    · by_cases h3 : error_type ∈ ["DatabaseError", "ConnectionPoolError"]
      · simp [h1, h2, h3]
      · simp [h1, h2, h3]

/-- Claim C7: for any task below its retry cap whose kind's breaker allows
execution, `should_retry` returns true together with the delay computed by
the claimed per-error-class formula (with `u` the sampled uniform jitter in
`[0.1, 0.3]`). -/
theorem claim_C7_delay_formula (rh : RetryHandlerState) (task : Task)
    (error_type : String) (u : ℚ) (now : Nat)
    (hretry : task.retry_count < task.max_retries)
    (hu1 : 1/10 ≤ u) (hu2 : u ≤ 3/10)
    (hallow : (check_circuit_breaker rh task.task_type now).2 = true) :
    should_retry rh task error_type u now =
      ((check_circuit_breaker rh task.task_type now).1, true,
        some (claimed_delay error_type task.retry_count u)) := by
  unfold should_retry
  rw [if_neg (by omega)]
  simp only [hallow, if_true, calculate_retry_delay_eq_claimed]

/-- Claim C7 witness: a rate-limited task on its second attempt with
`u = 1/5` gets the jittered delay `βŒŠ10 * (1 + 1/5)βŒ‹ = 12`, and the
transient-network case gives `5 * 2^1 = 10`. -/
theorem claim_C7_witness :
    c2_task.retry_count < c2_task.max_retries ∧
    (1 : ℚ)/10 ≤ 1/5 ∧ (1 : ℚ)/5 ≤ 3/10 ∧
    (check_circuit_breaker ⟨[]⟩ c2_task.task_type 0).2 = true ∧
    should_retry ⟨[]⟩ c2_task "RateLimitError" (1/5) 0 =
      ((check_circuit_breaker ⟨[]⟩ c2_task.task_type 0).1, true,
        some (claimed_delay "RateLimitError" c2_task.retry_count (1/5))) ∧
    claimed_delay "RateLimitError" 1 (1/5) = 12 :=
  ⟨by decide, by norm_num, by norm_num, by decide,
   claim_C7_delay_formula ⟨[]⟩ c2_task "RateLimitError" (1/5) 0 (by decide)
     (by norm_num) (by norm_num) (by decide),
   by
     rw [claimed_delay, if_neg (by decide), if_pos (by decide)]
     norm_num [settings_retry_delay]
     rfl⟩

/-! ## DLQ key invariant (claim C10) -/

/-- The DLQ invariant: at most one entry per task id (keys nodup) and every
entry's `task_id` field equals the key it is stored under. -/
def dlq_wf (dlq : List (Nat × DLQEntry)) : Prop :=
  (dlq.map Prod.fst).Nodup ∧ ∀ p ∈ dlq, p.2.task_id = p.1

instance (dlq : List (Nat × DLQEntry)) : Decidable (dlq_wf dlq) := by
  unfold dlq_wf
  infer_instance

theorem mem_ainsert {α β : Type} [DecidableEq α] {p : α × β}
    {l : List (α × β)} {k : α} {v : β} (h : p ∈ ainsert l k v) :
    p = (k, v) ∨ p ∈ l := by
  induction l with
  | nil => simpa [ainsert] using h
  | cons hd tl ih =>
    obtain ⟨k', v'⟩ := hd
    by_cases hk : k = k'
    · simp only [ainsert, if_pos hk, List.mem_cons] at h
      rcases h with h | h
      · exact Or.inl h
      · exact Or.inr (List.mem_cons_of_mem _ h)
    · simp only [ainsert, if_neg hk, List.mem_cons] at h
      rcases h with h | h
      · exact Or.inr (by simp [h])
      · rcases ih h with h2 | h2
        · exact Or.inl h2
        · exact Or.inr (List.mem_cons_of_mem _ h2)

theorem keys_ainsert_subset {α β : Type} [DecidableEq α] {a : α}
    {l : List (α × β)} {k : α} {v : β}
    (h : a ∈ (ainsert l k v).map Prod.fst) :
    a ∈ l.map Prod.fst ∨ a = k := by
  simp only [List.mem_map] at h ⊢
  obtain ⟨p, hp, rfl⟩ := h
  rcases mem_ainsert hp with rfl | hmem
  · right
    rfl
  · left
    exact ⟨p, hmem, rfl⟩

theorem nodup_keys_ainsert {α β : Type} [DecidableEq α]
    {l : List (α × β)} (k : α) (v : β)
    (h : (l.map Prod.fst).Nodup) : ((ainsert l k v).map Prod.fst).Nodup := by
  induction l with
  | nil => simp [ainsert]
  | cons hd tl ih =>
    obtain ⟨k', v'⟩ := hd
    simp only [List.map_cons, List.nodup_cons] at h
    obtain ⟨hk', htl⟩ := h
    by_cases hk : k = k'
    · subst hk
      simp only [ainsert]
      rw [if_pos trivial]
      simp only [List.map_cons, List.nodup_cons]
      exact ⟨hk', htl⟩
    · simp only [ainsert, if_neg hk, List.map_cons, List.nodup_cons]
      refine ⟨?_, ih htl⟩
      intro hmem
      rcases keys_ainsert_subset hmem with hmem2 | heq
      · exact hk' hmem2
      · exact hk heq.symm

theorem aerase_sublist {α β : Type} [DecidableEq α]
    (l : List (α × β)) (k : α) : (aerase l k).Sublist l := by
  induction l with
  | nil => simp [aerase]
  | cons hd tl ih =>
    obtain ⟨k', v'⟩ := hd
    by_cases hk : k = k'
    · simp only [aerase, if_pos hk]
      exact List.sublist_cons_self _ _
    · simp only [aerase, if_neg hk]
      exact ih.cons₂ _

theorem dlq_wf_aerase {l : List (Nat × DLQEntry)} (k : Nat)
    (h : dlq_wf l) : dlq_wf (aerase l k) := by
  obtain ⟨hn, hm⟩ := h
  exact ⟨hn.sublist ((aerase_sublist l k).map Prod.fst),
    fun p hp => hm p ((aerase_sublist l k).subset hp)⟩

theorem dlq_wf_add (dlq : List (Nat × DLQEntry)) (task : Task)
    (em et : String) (now : Nat) (h : dlq_wf dlq) :
    dlq_wf (add_dead_letter dlq task em et now) := by
  obtain ⟨hn, hm⟩ := h
  refine ⟨nodup_keys_ainsert _ _ hn, ?_⟩
  intro p hp
  rcases mem_ainsert hp with rfl | hmem
  · rfl
  · exact hm p hmem

/-- The DLQ component of `retry_dead_letter`: the entry is either left in
place (failure paths) or deleted (success path). -/
theorem retry_dead_letter_dlq (s : SysState) (tid now : Nat) :
    (retry_dead_letter s tid now).1.dlq = s.dlq ∨
    (retry_dead_letter s tid now).1.dlq = aerase s.dlq tid := by
  unfold retry_dead_letter
  cases h1 : alookup s.dlq tid with
  | none => exact Or.inl rfl
  | some dead =>
    cases h2 : alookup s.store.tasks tid with
    | none => exact Or.inl rfl
    | some t =>
      cases h3 : update_task_status s.store tid TaskStatus.pending none none now with
      | error m => exact Or.inl rfl
      | ok p => exact Or.inr rfl

/-- Claim C10: the DLQ holds at most one entry per task id and each stored
entry's `task_id` equals its key; `add` replaces an existing snapshot (last
write wins, witnessed by the lookup equation), and the invariant is
preserved by `add_dead_letter`, `retry_dead_letter` and
`purge_dead_letters`. -/
theorem claim_C10_dlq_invariant (s : SysState) (task : Task)
    (em et : String) (now : Nat) (tid : Nat) (tf : Option String)
    (hrs now2 now3 : Nat) (h : dlq_wf s.dlq) :
    dlq_wf (add_dead_letter s.dlq task em et now) ∧
    alookup (add_dead_letter s.dlq task em et now) task.id =
      some (mk_dead_letter task em et now) ∧
    dlq_wf (retry_dead_letter s tid now2).1.dlq ∧
    dlq_wf (purge_dead_letters s.dlq tf hrs now3).1 := by
  refine ⟨dlq_wf_add s.dlq task em et now h, alookup_ainsert_self .., ?_, ?_⟩
  · rcases retry_dead_letter_dlq s tid now2 with he | he
    · rw [he]
      exact h
    · rw [he]
      exact dlq_wf_aerase tid h
  · obtain ⟨hn, hm⟩ := h
    refine ⟨hn.sublist ((List.filter_sublist s.dlq).map Prod.fst), ?_⟩
    intro p hp
    exact hm p ((List.filter_sublist s.dlq).subset hp)

/-- Claim C10 witness: the invariant theorem applied at a concrete DLQ
holding an entry for task 1 that `add_dead_letter` overwrites. -/
theorem claim_C10_witness :
    dlq_wf c3_state.dlq ∧
    (dlq_wf (add_dead_letter c3_state.dlq c3_task "again" "ValueError" 9) ∧
     alookup (add_dead_letter c3_state.dlq c3_task "again" "ValueError" 9)
       c3_task.id = some (mk_dead_letter c3_task "again" "ValueError" 9) ∧
     dlq_wf (retry_dead_letter c3_state 1 60).1.dlq ∧
     dlq_wf (purge_dead_letters c3_state.dlq none 24 100000).1) :=
  ⟨by decide,
   claim_C10_dlq_invariant c3_state c3_task "again" "ValueError" 9 1 none
     24 60 100000 (by decide)⟩

end DTR
